import Mathlib

/-
Verification of the sails-hook-orm-mongoose lifecycle hook.

The repository consists of two near-duplicate versions of one hook
definition: `src/index.js` and a second, unnamed variant
(`src/unnamed/part_000`).  Each exposes a `configure()` routine that
validates configuration synchronously, and an `initialize(_cb)` routine
that connects to MongoDB, loads model definitions via
`sails.modules.loadModels`, compiles a Mongoose schema per definition,
registers model constructors on `sails.models`, optionally exposes them
as globals, and finally signals completion through a guarded wrapper
around `_cb`.

The embedding below models JavaScript dynamic values (as far as the
code inspects them: `typeof`, `Array.isArray`, truthiness, property
access), both `configure` variants (they differ: only `src/index.js`
validates `sails.config.globals.models`), the idempotency guard around
the completion callback as an explicit state machine, and the whole
`initialize` control flow as a pure function of the connection outcome
and the module-loader outcome.  The two variants of `initialize` differ
only in the literal text of log and error messages; the control flow
embedded here is that of `src/index.js`.
-/

/-- Model of a JavaScript value, as far as the hook inspects values:
`typeof`, `Array.isArray`, truthiness and string-keyed property access.
Functions are opaque here (the `constructSchema` override is modelled
separately, with its behaviour). -/
inductive JsVal : Type where
  | undefined : JsVal
  | null : JsVal
  | bool : Bool → JsVal
  | num : Int → JsVal
  | str : String → JsVal
  | arr : List JsVal → JsVal
  | obj : List (String × JsVal) → JsVal
  | fn : JsVal

/-- JavaScript `typeof` operator (note `typeof null === "object"`). -/
def JsVal.typeof : JsVal → String
  | .undefined => "undefined"
  | .null => "object"
  | .bool _ => "boolean"
  | .num _ => "number"
  | .str _ => "string"
  | .arr _ => "object"
  | .obj _ => "object"
  | .fn => "function"

/-- JavaScript `Array.isArray`. -/
def JsVal.isArray : JsVal → Bool
  | .arr _ => true
  | _ => false

/-- JavaScript truthiness, as used in `if (err)` and
`sails.config.globals.models` guards. -/
def JsVal.truthy : JsVal → Bool
  | .undefined => false
  | .null => false
  | .bool b => b
  | .num n => decide (n ≠ 0)
  | .str s => decide (s ≠ "")
  | .arr _ => true
  | .obj _ => true
  | .fn => true

/-- A JavaScript Error value: a message and a stack, which is what the
hook reads and rewrites (`e.message`, `e.stack`). -/
structure Err : Type where
  message : String
  stack : String
deriving DecidableEq

/-- Model of `new Error(m)`: the stack of a fresh Error starts with its
message (the frame list below it is irrelevant to the hook). -/
def Err.ofMessage (m : String) : Err :=
  { message := m, stack := "Error: " ++ m }

/-- The TypeError raised by JavaScript when reading a property of
`null` or `undefined`. -/
def propReadTypeError (p : String) : Err :=
  { message := "TypeError: Cannot read properties of null or undefined (reading " ++ p ++ ")"
    stack := "TypeError (reading " ++ p ++ ")" }

/-- JavaScript property read `v[p]` / `v.p`: throws a TypeError on
`null`/`undefined`, looks the key up on an object (missing keys give
`undefined`), and gives `undefined` on other primitives. -/
def JsVal.getProp : JsVal → String → Except Err JsVal
  | .null, p => .error (propReadTypeError p)
  | .undefined, p => .error (propReadTypeError p)
  | .obj fields, p => .ok ((List.lookup p fields).getD .undefined)
  | _, _ => .ok .undefined

/-- The slice of `sails.config` that the hook reads: `globals`,
`mongoose.uri` and `mongoose.connectionOpts`. -/
structure SailsConfig : Type where
  globals : JsVal
  mongooseUri : JsVal
  connectionOpts : JsVal

/-- Error thrown by `configure` in `src/index.js` when
`sails.config.globals.models` is present but not a boolean. -/
def globalsModelsErr : Err :=
  Err.ofMessage
    ("If provided, `sails.config.globals.models` must be either `true` or `false`.\n" ++
     "If `true`, instantiated Mongoose models will be exposed as global variables.")

/-- Error thrown by `configure` in `src/index.js` when
`sails.config.mongoose.uri` is not a string. -/
def uriErr : Err :=
  Err.ofMessage
    ("Expected Mongo connection URI (a string) to be provided as `sails.config.mongoose.uri`, but the provided Mongo URI is invalid.\n" ++
     "See https://docs.mongodb.org/manual/reference/connection-string/ for help.")

/-- Error thrown by `configure` in `src/index.js` when
`sails.config.mongoose.connectionOpts` is not a non-array object. -/
def connectionOptsErr : Err :=
  Err.ofMessage
    ("If provided, `sails.config.mongoose.connectionOpts` must be a dictionary of additional options to pass to Mongoose.\n" ++
     "See http://mongoosejs.com/docs/connections.html for a full list of available options.")

/-- The first validation of `configure()` in `src/index.js`: when
`typeof sails.config.globals === "object"`, the `models` property is
read (which can itself throw, e.g. on a null `globals`) and must have
typeof boolean. -/
def globalsModelsCheck (globals : JsVal) : Except Err Unit :=
  if globals.typeof = "object" then
    match globals.getProp "models" with
    | .error e => .error e
    | .ok m =>
        if m.typeof ≠ "boolean" then .error globalsModelsErr
        else .ok ()
  else .ok ()

/-- The last two validations, shared verbatim (up to message text) by
both variants: `sails.config.mongoose.uri` must be a string and
`sails.config.mongoose.connectionOpts` a non-array object. -/
def mongooseConfigCheck (cfg : SailsConfig) (uriError optsError : Err) : Except Err Unit :=
  if cfg.mongooseUri.typeof ≠ "string" then .error uriError
  else if cfg.connectionOpts.typeof ≠ "object" ∨ cfg.connectionOpts.isArray then .error optsError
  else .ok ()

/-- The `configure()` of `src/index.js`: validates
`sails.config.globals.models` (when `globals` has typeof object),
then `sails.config.mongoose.uri`, then
`sails.config.mongoose.connectionOpts`; throws on the first
violation. -/
def configure (cfg : SailsConfig) : Except Err Unit :=
  match globalsModelsCheck cfg.globals with
  | .error e => .error e
  | .ok _ => mongooseConfigCheck cfg uriErr connectionOptsErr

/-- Error thrown by `configure` of the second variant when the URI is
not a string (a template literal, with its leading newline and
trailing indentation). -/
def uriErr2 : Err :=
  Err.ofMessage
    ("\nExpected Mongo connection URI (a string) to be provided as \"sails.config.mongoose.uri\",\nbut the provided Mongo URI is invalid.\nSee https://docs.mongodb.org/manual/reference/connection-string/ for help.\n        ")

/-- Error thrown by `configure` of the second variant when
`connectionOpts` is not a non-array object. -/
def connectionOptsErr2 : Err :=
  Err.ofMessage
    ("\nIf provided, \"sails.config.mongoose.connectionOpts\" must be a dictionary of additional options to pass to Mongoose.\nSee http://mongoosejs.com/docs/connections.html for a full list of available options.\n        ")

/-- The `configure()` of the second variant (`src/unnamed/part_000`):
it validates only `sails.config.mongoose.uri` and
`sails.config.mongoose.connectionOpts`; it performs no check of
`sails.config.globals.models`. -/
def configure2 (cfg : SailsConfig) : Except Err Unit :=
  mongooseConfigCheck cfg uriErr2 connectionOptsErr2

/-- A compiled Mongoose schema object: either the result of
`new sails.mongoose.Schema(dict)` applied to the (defaulted) schema
dictionary, or an arbitrary object returned by a `constructSchema`
override. -/
inductive SchemaObj : Type where
  | mongooseSchema : JsVal → SchemaObj
  | custom : Nat → SchemaObj

/-- The `constructSchema` field of a model definition: absent, a
function (here: its behaviour on the schema dictionary, possibly
throwing), or present but not callable. -/
inductive OverrideField : Type where
  | undefined : OverrideField
  | fn : (JsVal → Except Err SchemaObj) → OverrideField
  | other : JsVal → OverrideField

/-- A raw model definition as produced by the module loader: a
`schema` value, an optional `constructSchema` override and a
`globalId`. -/
structure ModelDef : Type where
  schema : JsVal
  constructSchema : OverrideField
  globalId : String

/-- The schema dictionary actually used for a definition: a missing
(`undefined`) `schema` field is defaulted to the empty dictionary. -/
def schemaValOf (d : ModelDef) : JsVal :=
  if d.schema.typeof = "undefined" then JsVal.obj [] else d.schema

/-- The identity-qualified error for a non-dictionary `schema`
(message text of `src/index.js`). -/
def invalidSchemaErr (identity : String) : Err :=
  Err.ofMessage
    ("Invalid `schema` provided in model (`" ++ identity ++ "`).  If provided, `schema` must be a dictionary.")

/-- The identity-qualified error for a `constructSchema` field that is
present but not a function (message text of `src/index.js`). -/
def invalidOverrideErr (identity : String) : Err :=
  Err.ofMessage
    ("Invalid `constructSchema` interceptor provided in model (`" ++ identity ++ "`).  If provided, `constructSchema` must be a function.")

/-- The identity-naming header prepended to the message and stack of an
error thrown by a `constructSchema` override. -/
def overrideHeader (identity : String) : String :=
  "Encountered an error when running `constructSchema` interceptor provided for model (`" ++ identity ++ "`). Details:\n"

/-- Rewrapping of an error thrown by a `constructSchema` override:
`e.message` and `e.stack` each get the identity-naming header
prepended, and the original text is kept as the suffix. -/
def wrapOverrideErr (identity : String) (e : Err) : Err :=
  { message := overrideHeader identity ++ e.message
    stack := overrideHeader identity ++ e.stack }

/-- One iteration of the schema-compilation loop of `initialize`:
default a missing `schema` to the empty dictionary, reject a schema
that is not a non-array object, then either construct a Mongoose
schema directly, run the `constructSchema` override (rewrapping any
error it throws), or reject a non-callable override. -/
def compileOne (identity : String) (d : ModelDef) : Except Err SchemaObj :=
  let schemaVal := schemaValOf d
  if schemaVal.typeof ≠ "object" ∨ schemaVal.isArray then
    .error (invalidSchemaErr identity)
  else
    match d.constructSchema with
    | .undefined => .ok (SchemaObj.mongooseSchema schemaVal)
    | .fn f =>
        match f schemaVal with
        | .ok s => .ok s
        | .error e => .error (wrapOverrideErr identity e)
    | .other _ => .error (invalidOverrideErr identity)

/-- The whole `for (const identity in modules)` compilation loop: the
first failure aborts the remaining work. -/
def compileSchemas : List (String × ModelDef) → Except Err (List (String × SchemaObj))
  | [] => .ok []
  | (identity, d) :: rest =>
      match compileOne identity d with
      | .error e => .error e
      | .ok s =>
          match compileSchemas rest with
          | .error e => .error e
          | .ok tail => .ok ((identity, s) :: tail)

/-- A registered model handle: the result of
`sails.mongoose.model(globalId, schema)` stamped with its `globalId`
and `identity`. -/
structure ModelEntry : Type where
  globalId : String
  identity : String
  schema : SchemaObj

/-- The registration loop of `initialize`: for each compiled schema,
build a model from `modules[identity].globalId` and the schema, stamp
it, and store it in `sails.models` under its identity. -/
def registerModels (modules : List (String × ModelDef))
    (schemas : List (String × SchemaObj)) : List (String × ModelEntry) :=
  schemas.map fun p =>
    (p.1,
      { globalId := ((List.lookup p.1 modules).map ModelDef.globalId).getD ""
        identity := p.1
        schema := p.2 })

/-- The global-exposure step of `initialize`: when
`typeof sails.config.globals === "object"` and
`sails.config.globals.models` is truthy, bind every registered model
in global scope under its `globalId`; otherwise create no bindings.
Reading `.models` can itself throw (e.g. when `globals` is null). -/
def exposeGlobals (globals : JsVal) (models : List (String × ModelEntry)) :
    Except Err (List (String × ModelEntry)) :=
  if globals.typeof = "object" then
    match globals.getProp "models" with
    | .error e => .error e
    | .ok m =>
        if m.truthy then .ok (models.map fun p => (p.2.globalId, p.2))
        else .ok []
  else .ok []

/-- State of the guarded completion-callback wrapper `cb` built inside
`initialize`: the `hasAlreadyTriggeredCallback` flag, the arguments
with which the external `_cb` has actually been invoked (in order),
and the `sails.log.warn` / `sails.log.error` lines emitted by the
guard. -/
structure CbState : Type where
  hasAlreadyTriggeredCallback : Bool
  externalCalls : List (Option Err)
  warnLog : List String
  errorLog : List String
deriving DecidableEq

/-- The fresh guard state at the start of `initialize`
(`hasAlreadyTriggeredCallback` is declared and left undefined, i.e.
falsy). -/
def CbState.start : CbState :=
  { hasAlreadyTriggeredCallback := false, externalCalls := [], warnLog := [], errorLog := [] }

/-- How one invocation of the wrapper ends: a normal return, or a
thrown error (the late-duplicate-error escalation). -/
inductive CbOutcome : Type where
  | returned : CbOutcome
  | threw : Err → CbOutcome
deriving DecidableEq

/-- The repeated-call log line of the guard. -/
def calledAgainMsg : String :=
  "`initialize` function of Mongoose hook (ORM hook override) was called again, but that should never happen more than once!"

/-- The escalation log line emitted just before the guard rethrows a
late duplicate error. -/
def crashMsg : String :=
  "Proceeding to crash the server... (this is to avoid creating any weird race conditions that could potentially mess up your data)"

/-- One invocation of the guarded wrapper `cb(err)`: if the guard flag
is already set, a duplicate call with an error logs two error lines
and throws that error, while a duplicate call without an error logs a
warning and returns; otherwise the flag is set and the external `_cb`
is invoked with `err`. -/
def cbCall (s : CbState) (err : Option Err) : CbState × CbOutcome :=
  if s.hasAlreadyTriggeredCallback then
    match err with
    | some e =>
        ({ s with errorLog := s.errorLog ++ [calledAgainMsg, crashMsg] }, CbOutcome.threw e)
    | none =>
        ({ s with warnLog := s.warnLog ++ [calledAgainMsg] }, CbOutcome.returned)
  else
    ({ s with hasAlreadyTriggeredCallback := true
              externalCalls := s.externalCalls ++ [err] }, CbOutcome.returned)

/-- Observable result of one `initialize` run: the final guard state
(which records every `_cb` invocation), `sails.models` (`none` when
the registry assignment was never reached), and the global bindings
created. -/
structure InitResult : Type where
  cbState : CbState
  models : Option (List (String × ModelEntry))
  globalBindings : List (String × ModelEntry)

/-- The `initialize(_cb)` control flow of `src/index.js` as a function
of its two asynchronous outcomes: the mongoose connection attempt
(`none` = fulfilled; `some e` = rejected, in which case the `.catch`
handler throws `new Error(e.message)` and the outer catch forwards it
to `cb`), and the `loadModels` callback arguments (an error, passed to
`cb` unmodified, or the modules dictionary).  On modules, schemas are
compiled (any failure is caught and passed to `cb`), then
`sails.models` is populated, globals are optionally exposed, and `cb`
is finally invoked with no argument. -/
def init (cfg : SailsConfig) (connectResult : Option Err)
    (loadResult : Except Err (List (String × ModelDef))) : InitResult :=
  match connectResult with
  | some connErr =>
      let e := Err.ofMessage connErr.message
      { cbState := (cbCall CbState.start (some e)).1, models := none, globalBindings := [] }
  | none =>
      match loadResult with
      | .error err =>
          { cbState := (cbCall CbState.start (some err)).1, models := none, globalBindings := [] }
      | .ok modules =>
          match compileSchemas modules with
          | .error e =>
              { cbState := (cbCall CbState.start (some e)).1, models := none, globalBindings := [] }
          | .ok schemas =>
              let models := registerModels modules schemas
              match exposeGlobals cfg.globals models with
              | .error e =>
                  { cbState := (cbCall CbState.start (some e)).1
                    models := some models, globalBindings := [] }
              | .ok gbs =>
                  { cbState := (cbCall CbState.start none).1
                    models := some models, globalBindings := gbs }

/-
Theorems.
-/

theorem cbCall_start_externalCalls (err : Option Err) :
    (cbCall CbState.start err).1.externalCalls = [err] := rfl

theorem compileSchemas_append_error (xs ys : List (String × ModelDef))
    (a : List (String × SchemaObj)) (e : Err)
    (hx : compileSchemas xs = .ok a) (hy : compileSchemas ys = .error e) :
    compileSchemas (xs ++ ys) = .error e := by
  induction xs generalizing a with
  | nil => simpa using hy
  | cons hd tl ih =>
      obtain ⟨identity, d⟩ := hd
      cases hc : compileOne identity d with
      | error e2 => simp [compileSchemas, hc] at hx
      | ok s =>
          simp only [compileSchemas, hc] at hx
          cases ht : compileSchemas tl with
          | error e2 => simp [ht] at hx
          | ok tail =>
              simp [List.cons_append, compileSchemas, hc, List.append_eq, ih tail ht]

theorem compileOne_invalid_schema (identity : String) (d : ModelDef)
    (h1 : d.schema.typeof ≠ "undefined")
    (h2 : d.schema.typeof ≠ "object" ∨ d.schema.isArray = true) :
    compileOne identity d = .error (invalidSchemaErr identity) := by
  have hval : schemaValOf d = d.schema := by simp [schemaValOf, h1]
  simp [compileOne, hval, h2]

/-- C1: under the single-path execution modelled by `init` (the linear
validate-connect-load-compile-register flow, with no stray event
firing the wrapper a second time), the external completion callback
`_cb` is invoked exactly once, whatever the connection outcome, the
loader outcome and the module definitions are. -/
theorem c1_external_callback_fires_exactly_once (cfg : SailsConfig)
    (connectResult : Option Err)
    (loadResult : Except Err (List (String × ModelDef))) :
    ((init cfg connectResult loadResult).cbState.externalCalls).length = 1 := by
  cases connectResult with
  | some e => rfl
  | none =>
      cases loadResult with
      | error err => rfl
      | ok modules =>
          simp only [init]
          cases h : compileSchemas modules with
          | error e => simp [h, cbCall, CbState.start]
          | ok schemas =>
              cases h2 : exposeGlobals cfg.globals (registerModels modules schemas) with
              | error e => simp [h, h2, cbCall, CbState.start]
              | ok gbs => simp [h, h2, cbCall, CbState.start]

/-- C2: once the guard flag is set, a further invocation of the
wrapped callback with no error logs the repeated-call warning, leaves
the external `_cb` un-reinvoked, and returns normally (throws
nothing). -/
theorem c2_duplicate_success_swallowed (s : CbState)
    (h : s.hasAlreadyTriggeredCallback = true) :
    (cbCall s none).2 = CbOutcome.returned ∧
    (cbCall s none).1.externalCalls = s.externalCalls ∧
    (cbCall s none).1.warnLog = s.warnLog ++ [calledAgainMsg] := by
  simp [cbCall, h]

theorem c2_duplicate_success_swallowed_witness :
    (cbCall { hasAlreadyTriggeredCallback := true, externalCalls := [none],
              warnLog := [], errorLog := [] } none).2 = CbOutcome.returned ∧
    (cbCall { hasAlreadyTriggeredCallback := true, externalCalls := [none],
              warnLog := [], errorLog := [] } none).1.externalCalls = [none] ∧
    (cbCall { hasAlreadyTriggeredCallback := true, externalCalls := [none],
              warnLog := [], errorLog := [] } none).1.warnLog = [] ++ [calledAgainMsg] :=
  c2_duplicate_success_swallowed
    { hasAlreadyTriggeredCallback := true, externalCalls := [none],
      warnLog := [], errorLog := [] } rfl

/-- C3: once the guard flag is set, a further invocation of the
wrapped callback with a (non-null) error logs the two escalation lines
and throws that very error; the external `_cb` is not invoked with
it. -/
theorem c3_duplicate_error_escalates (s : CbState) (e : Err)
    (h : s.hasAlreadyTriggeredCallback = true) :
    (cbCall s (some e)).2 = CbOutcome.threw e ∧
    (cbCall s (some e)).1.externalCalls = s.externalCalls ∧
    (cbCall s (some e)).1.errorLog = s.errorLog ++ [calledAgainMsg, crashMsg] := by
  simp [cbCall, h]

theorem c3_duplicate_error_escalates_witness :
    (cbCall { hasAlreadyTriggeredCallback := true, externalCalls := [none],
              warnLog := [], errorLog := [] } (some (Err.ofMessage "late"))).2 =
      CbOutcome.threw (Err.ofMessage "late") ∧
    (cbCall { hasAlreadyTriggeredCallback := true, externalCalls := [none],
              warnLog := [], errorLog := [] } (some (Err.ofMessage "late"))).1.externalCalls =
      [none] ∧
    (cbCall { hasAlreadyTriggeredCallback := true, externalCalls := [none],
              warnLog := [], errorLog := [] } (some (Err.ofMessage "late"))).1.errorLog =
      [] ++ [calledAgainMsg, crashMsg] :=
  c3_duplicate_error_escalates
    { hasAlreadyTriggeredCallback := true, externalCalls := [none],
      warnLog := [], errorLog := [] } (Err.ofMessage "late") rfl

/-- C4 as stated is false for the second variant: its `configure`
performs no validation of `sails.config.globals.models`, so with a
globals object present whose `models` flag is the (non-boolean) string
"yes", a string URI and a dictionary `connectionOpts`, `configure`
returns normally instead of throwing. -/
theorem c4_globals_flag_counterexample :
    JsVal.getProp (JsVal.obj [("models", JsVal.str "yes")]) "models" =
      Except.ok (JsVal.str "yes") ∧
    (JsVal.str "yes").typeof ≠ "boolean" ∧
    (JsVal.obj [("models", JsVal.str "yes")]).typeof = "object" ∧
    configure2 { globals := JsVal.obj [("models", JsVal.str "yes")],
                 mongooseUri := JsVal.str "mongodb://localhost/db",
                 connectionOpts := JsVal.obj [] } = Except.ok () :=
  ⟨rfl, by decide, rfl, rfl⟩

/-- C4 (amended): in the `src/index.js` variant, `configure` throws a
descriptive error for each malformed configuration value — a globals
object with a non-boolean `models` flag, a non-string URI (once the
globals check passes), and an array or non-object `connectionOpts`
(once the earlier checks pass).  The second variant validates only the
URI and `connectionOpts`: its `configure` does not check
`globals.models` and returns normally when only that flag is
malformed. -/
theorem c4_config_validation_amended (cfg : SailsConfig) :
    (∀ fs, cfg.globals = JsVal.obj fs →
        ((List.lookup "models" fs).getD JsVal.undefined).typeof ≠ "boolean" →
        configure cfg = .error globalsModelsErr) ∧
    (globalsModelsCheck cfg.globals = .ok () →
        cfg.mongooseUri.typeof ≠ "string" →
        configure cfg = .error uriErr) ∧
    (globalsModelsCheck cfg.globals = .ok () →
        cfg.mongooseUri.typeof = "string" →
        (cfg.connectionOpts.typeof ≠ "object" ∨ cfg.connectionOpts.isArray = true) →
        configure cfg = .error connectionOptsErr) ∧
    (cfg.mongooseUri.typeof ≠ "string" → configure2 cfg = .error uriErr2) ∧
    (cfg.mongooseUri.typeof = "string" →
        (cfg.connectionOpts.typeof ≠ "object" ∨ cfg.connectionOpts.isArray = true) →
        configure2 cfg = .error connectionOptsErr2) ∧
    (∀ fs, cfg.globals = JsVal.obj fs →
        ((List.lookup "models" fs).getD JsVal.undefined).typeof ≠ "boolean" →
        cfg.mongooseUri.typeof = "string" →
        cfg.connectionOpts.typeof = "object" →
        cfg.connectionOpts.isArray = false →
        configure2 cfg = .ok ()) := by
  refine ⟨?_, ?_, ?_, ?_, ?_, ?_⟩
  · intro fs hg hnb
    have hchk : globalsModelsCheck cfg.globals = .error globalsModelsErr := by
      rw [hg]
      unfold globalsModelsCheck
      rw [if_pos (show (JsVal.obj fs).typeof = "object" from rfl)]
      simp only [JsVal.getProp]
      rw [if_pos hnb]
    simp [configure, hchk]
  · intro hchk hu
    simp [configure, hchk, mongooseConfigCheck, hu]
  · intro hchk hu hopts
    simp [configure, hchk, mongooseConfigCheck, hu, hopts]
  · intro hu
    simp [configure2, mongooseConfigCheck, hu]
  · intro hu hopts
    simp [configure2, mongooseConfigCheck, hu, hopts]
  · intro fs hg hnb hu hot har
    simp [configure2, mongooseConfigCheck, hu, hot, har]

theorem c4_config_validation_amended_witness :
    configure { globals := JsVal.obj [("models", JsVal.num 1)],
                mongooseUri := JsVal.str "mongodb://h/db",
                connectionOpts := JsVal.obj [] } = .error globalsModelsErr ∧
    configure { globals := JsVal.undefined,
                mongooseUri := JsVal.num 3,
                connectionOpts := JsVal.obj [] } = .error uriErr ∧
    configure { globals := JsVal.undefined,
                mongooseUri := JsVal.str "mongodb://h/db",
                connectionOpts := JsVal.arr [] } = .error connectionOptsErr ∧
    configure2 { globals := JsVal.undefined,
                 mongooseUri := JsVal.num 3,
                 connectionOpts := JsVal.obj [] } = .error uriErr2 ∧
    configure2 { globals := JsVal.undefined,
                 mongooseUri := JsVal.str "mongodb://h/db",
                 connectionOpts := JsVal.arr [] } = .error connectionOptsErr2 ∧
    configure2 { globals := JsVal.obj [("models", JsVal.num 1)],
                 mongooseUri := JsVal.str "mongodb://h/db",
                 connectionOpts := JsVal.obj [] } = .ok () :=
  ⟨(c4_config_validation_amended _).1 [("models", JsVal.num 1)] rfl (by decide),
   (c4_config_validation_amended _).2.1 rfl (by decide),
   (c4_config_validation_amended _).2.2.1 rfl rfl (Or.inr rfl),
   (c4_config_validation_amended _).2.2.2.1 (by decide),
   (c4_config_validation_amended _).2.2.2.2.1 rfl (Or.inr rfl),
   (c4_config_validation_amended _).2.2.2.2.2 [("models", JsVal.num 1)] rfl (by decide) rfl rfl rfl⟩

/-- C5: a model definition with an undefined `schema` field compiles
exactly like one whose `schema` is the empty dictionary, whatever the
`constructSchema` field is (so through the direct
`new sails.mongoose.Schema` path as well as through an override
function). -/
theorem c5_missing_schema_defaults_to_empty (identity g : String) (cs : OverrideField) :
    compileOne identity { schema := JsVal.undefined, constructSchema := cs, globalId := g } =
      compileOne identity { schema := JsVal.obj [], constructSchema := cs, globalId := g } := rfl

/-- C6: when some model definition supplies a `schema` that is present
(not undefined) and not a plain dictionary (wrong typeof, or an
array), and every definition before it compiles fine, initialization
fails: the completion callback receives exactly the identity-qualified
schema error of that model (whose message names the identity), and
`sails.models` is never assigned. -/
theorem c6_invalid_schema_aborts (cfg : SailsConfig)
    (pre post : List (String × ModelDef)) (identity : String) (d : ModelDef)
    (sch : List (String × SchemaObj))
    (hpre : compileSchemas pre = .ok sch)
    (h1 : d.schema.typeof ≠ "undefined")
    (h2 : d.schema.typeof ≠ "object" ∨ d.schema.isArray = true) :
    (init cfg none (.ok (pre ++ (identity, d) :: post))).models = none ∧
    (init cfg none (.ok (pre ++ (identity, d) :: post))).cbState.externalCalls =
      [some (invalidSchemaErr identity)] ∧
    (invalidSchemaErr identity).message =
      "Invalid `schema` provided in model (`" ++ identity ++
        "`).  If provided, `schema` must be a dictionary." := by
  have hhd : compileSchemas ((identity, d) :: post) = .error (invalidSchemaErr identity) := by
    simp [compileSchemas, compileOne_invalid_schema identity d h1 h2]
  have hc : compileSchemas (pre ++ (identity, d) :: post) = .error (invalidSchemaErr identity) :=
    compileSchemas_append_error pre ((identity, d) :: post) sch (invalidSchemaErr identity) hpre hhd
  refine ⟨?_, ?_, rfl⟩ <;> simp [init, hc, cbCall, CbState.start]

theorem c6_invalid_schema_aborts_witness :
    (init { globals := JsVal.undefined, mongooseUri := JsVal.str "mongodb://h/db",
            connectionOpts := JsVal.obj [] } none
        (.ok [("user", { schema := JsVal.str "nope", constructSchema := OverrideField.undefined,
                         globalId := "User" })])).models = none ∧
    (init { globals := JsVal.undefined, mongooseUri := JsVal.str "mongodb://h/db",
            connectionOpts := JsVal.obj [] } none
        (.ok [("user", { schema := JsVal.str "nope", constructSchema := OverrideField.undefined,
                         globalId := "User" })])).cbState.externalCalls =
      [some (invalidSchemaErr "user")] ∧
    (invalidSchemaErr "user").message =
      "Invalid `schema` provided in model (`" ++ "user" ++
        "`).  If provided, `schema` must be a dictionary." :=
  c6_invalid_schema_aborts
    { globals := JsVal.undefined, mongooseUri := JsVal.str "mongodb://h/db",
      connectionOpts := JsVal.obj [] } [] []
    "user" { schema := JsVal.str "nope", constructSchema := OverrideField.undefined, globalId := "User" }
    [] rfl (by decide) (Or.inl (by decide))

/-- C7: when a definition's `constructSchema` override throws an error
`e` (and the definitions before it compile fine, and its own schema
dictionary passes the shape check), the error surfaced through the
completion callback carries a message and a stack that are the
identity-naming header followed by the original text as suffix. -/
theorem c7_override_error_wrapped (cfg : SailsConfig)
    (pre post : List (String × ModelDef)) (identity : String) (d : ModelDef)
    (f : JsVal → Except Err SchemaObj) (e : Err)
    (sch : List (String × SchemaObj))
    (hpre : compileSchemas pre = .ok sch)
    (hshape : (schemaValOf d).typeof = "object")
    (hnarr : (schemaValOf d).isArray = false)
    (hcs : d.constructSchema = OverrideField.fn f)
    (hf : f (schemaValOf d) = .error e) :
    (init cfg none (.ok (pre ++ (identity, d) :: post))).cbState.externalCalls =
      [some { message := overrideHeader identity ++ e.message
              stack := overrideHeader identity ++ e.stack }] ∧
    overrideHeader identity =
      "Encountered an error when running `constructSchema` interceptor provided for model (`" ++
        identity ++ "`). Details:\n" := by
  have hone : compileOne identity d = .error (wrapOverrideErr identity e) := by
    unfold compileOne
    rw [if_neg (by simp [hshape, hnarr])]
    rw [hcs]
    simp [hf]
  have hhd : compileSchemas ((identity, d) :: post) = .error (wrapOverrideErr identity e) := by
    simp [compileSchemas, hone]
  have hc : compileSchemas (pre ++ (identity, d) :: post) = .error (wrapOverrideErr identity e) :=
    compileSchemas_append_error pre ((identity, d) :: post) sch (wrapOverrideErr identity e) hpre hhd
  exact ⟨by simp [init, hc, cbCall, CbState.start, wrapOverrideErr], rfl⟩

theorem c7_override_error_wrapped_witness :
    (init { globals := JsVal.undefined, mongooseUri := JsVal.str "mongodb://h/db",
            connectionOpts := JsVal.obj [] } none
        (.ok [("user", { schema := JsVal.obj [],
                         constructSchema := OverrideField.fn
                           (fun _ => .error { message := "boom", stack := "boomstack" }),
                         globalId := "User" })])).cbState.externalCalls =
      [some { message := overrideHeader "user" ++ "boom"
              stack := overrideHeader "user" ++ "boomstack" }] ∧
    overrideHeader "user" =
      "Encountered an error when running `constructSchema` interceptor provided for model (`" ++
        "user" ++ "`). Details:\n" :=
  c7_override_error_wrapped
    { globals := JsVal.undefined, mongooseUri := JsVal.str "mongodb://h/db",
      connectionOpts := JsVal.obj [] } [] []
    "user"
    { schema := JsVal.obj [],
      constructSchema := OverrideField.fn
        (fun _ => .error { message := "boom", stack := "boomstack" }),
      globalId := "User" }
    (fun _ => .error { message := "boom", stack := "boomstack" })
    { message := "boom", stack := "boomstack" }
    [] rfl rfl rfl rfl rfl

/-- C8: when the module-loading collaborator reports an error, that
exact error value is forwarded to the completion callback unmodified,
`sails.models` is never assigned and no global binding is created. -/
theorem c8_loader_error_passed_through (cfg : SailsConfig) (err : Err) :
    (init cfg none (.error err)).cbState.externalCalls = [some err] ∧
    (init cfg none (.error err)).models = none ∧
    (init cfg none (.error err)).globalBindings = [] :=
  ⟨rfl, rfl, rfl⟩

/-- C9: after an initialization in which every definition compiles,
`sails.models` holds one registered handle per compiled identity; if a
globals object with a truthy `models` flag is configured, each handle
is additionally bound in global scope under its `globalId`, and if the
globals config is not an object or its `models` flag is falsy, no
global binding is created. -/
theorem c9_registry_and_global_exposure (cfg : SailsConfig)
    (modules : List (String × ModelDef)) (schemas : List (String × SchemaObj))
    (hc : compileSchemas modules = .ok schemas) :
    (init cfg none (.ok modules)).models = some (registerModels modules schemas) ∧
    (registerModels modules schemas).map Prod.fst = schemas.map Prod.fst ∧
    (∀ fs, cfg.globals = JsVal.obj fs →
        ((List.lookup "models" fs).getD JsVal.undefined).truthy = true →
        (init cfg none (.ok modules)).globalBindings =
          (registerModels modules schemas).map fun p => (p.2.globalId, p.2)) ∧
    ((cfg.globals.typeof ≠ "object" ∨
        ∃ fs, cfg.globals = JsVal.obj fs ∧
          ((List.lookup "models" fs).getD JsVal.undefined).truthy = false) →
        (init cfg none (.ok modules)).globalBindings = []) := by
  refine ⟨?_, ?_, ?_, ?_⟩
  · simp only [init, hc]
    cases h2 : exposeGlobals cfg.globals (registerModels modules schemas) with
    | error e => simp [h2]
    | ok gbs => simp [h2]
  · simp [registerModels, List.map_map, Function.comp]
  · intro fs hg ht
    have hexp : exposeGlobals cfg.globals (registerModels modules schemas) =
        .ok ((registerModels modules schemas).map fun p => (p.2.globalId, p.2)) := by
      rw [hg]
      unfold exposeGlobals
      rw [if_pos (show (JsVal.obj fs).typeof = "object" from rfl)]
      simp only [JsVal.getProp]
      rw [if_pos ht]
    simp [init, hc, hexp]
  · intro hcase
    have hexp : exposeGlobals cfg.globals (registerModels modules schemas) = .ok [] := by
      rcases hcase with hno | ⟨fs, hg, hf⟩
      · unfold exposeGlobals
        rw [if_neg hno]
      · rw [hg]
        unfold exposeGlobals
        rw [if_pos (show (JsVal.obj fs).typeof = "object" from rfl)]
        simp only [JsVal.getProp]
        rw [if_neg (by simp [hf])]
    simp [init, hc, hexp]

theorem c9_registry_and_global_exposure_witness :
    (init { globals := JsVal.obj [("models", JsVal.bool true)],
            mongooseUri := JsVal.str "mongodb://h/db", connectionOpts := JsVal.obj [] } none
        (.ok [("alpha", { schema := JsVal.obj [], constructSchema := OverrideField.undefined,
                          globalId := "Alpha" }),
              ("beta", { schema := JsVal.obj [], constructSchema := OverrideField.undefined,
                         globalId := "Beta" })])).globalBindings =
      (registerModels
        [("alpha", { schema := JsVal.obj [], constructSchema := OverrideField.undefined,
                     globalId := "Alpha" }),
         ("beta", { schema := JsVal.obj [], constructSchema := OverrideField.undefined,
                    globalId := "Beta" })]
        [("alpha", SchemaObj.mongooseSchema (JsVal.obj [])),
         ("beta", SchemaObj.mongooseSchema (JsVal.obj []))]).map
        (fun p => (p.2.globalId, p.2)) ∧
    (init { globals := JsVal.obj [("models", JsVal.bool false)],
            mongooseUri := JsVal.str "mongodb://h/db", connectionOpts := JsVal.obj [] } none
        (.ok [("alpha", { schema := JsVal.obj [], constructSchema := OverrideField.undefined,
                          globalId := "Alpha" })])).globalBindings = [] ∧
    (init { globals := JsVal.obj [("models", JsVal.bool false)],
            mongooseUri := JsVal.str "mongodb://h/db", connectionOpts := JsVal.obj [] } none
        (.ok [("alpha", { schema := JsVal.obj [], constructSchema := OverrideField.undefined,
                          globalId := "Alpha" })])).models =
      some (registerModels
        [("alpha", { schema := JsVal.obj [], constructSchema := OverrideField.undefined,
                     globalId := "Alpha" })]
        [("alpha", SchemaObj.mongooseSchema (JsVal.obj []))]) :=
  ⟨(c9_registry_and_global_exposure
      { globals := JsVal.obj [("models", JsVal.bool true)],
        mongooseUri := JsVal.str "mongodb://h/db", connectionOpts := JsVal.obj [] }
      [("alpha", { schema := JsVal.obj [], constructSchema := OverrideField.undefined,
                   globalId := "Alpha" }),
       ("beta", { schema := JsVal.obj [], constructSchema := OverrideField.undefined,
                  globalId := "Beta" })]
      [("alpha", SchemaObj.mongooseSchema (JsVal.obj [])),
       ("beta", SchemaObj.mongooseSchema (JsVal.obj []))]
      rfl).2.2.1 [("models", JsVal.bool true)] rfl rfl,
   (c9_registry_and_global_exposure
      { globals := JsVal.obj [("models", JsVal.bool false)],
        mongooseUri := JsVal.str "mongodb://h/db", connectionOpts := JsVal.obj [] }
      [("alpha", { schema := JsVal.obj [], constructSchema := OverrideField.undefined,
                   globalId := "Alpha" })]
      [("alpha", SchemaObj.mongooseSchema (JsVal.obj []))]
      rfl).2.2.2
     (Or.inr ⟨[("models", JsVal.bool false)], rfl, rfl⟩),
   (c9_registry_and_global_exposure
      { globals := JsVal.obj [("models", JsVal.bool false)],
        mongooseUri := JsVal.str "mongodb://h/db", connectionOpts := JsVal.obj [] }
      [("alpha", { schema := JsVal.obj [], constructSchema := OverrideField.undefined,
                   globalId := "Alpha" })]
      [("alpha", SchemaObj.mongooseSchema (JsVal.obj []))]
      rfl).1⟩

/-- C10: a model definition whose `schema` field is null is not
rejected by the shape check (`typeof null` is "object" and null is not
an array), so null itself is handed to schema construction: directly
to `new sails.mongoose.Schema` when no override is given, and as the
argument of the `constructSchema` override when one is given — the
identity-qualified validation error is never produced for it. -/
theorem c10_null_schema_passes_validation (identity : String) (d : ModelDef)
    (h : d.schema = JsVal.null) :
    JsVal.null.typeof = "object" ∧
    JsVal.null.isArray = false ∧
    (d.constructSchema = OverrideField.undefined →
        compileOne identity d = .ok (SchemaObj.mongooseSchema JsVal.null)) ∧
    (∀ f, d.constructSchema = OverrideField.fn f →
        compileOne identity d =
          match f JsVal.null with
          | .ok s => .ok s
          | .error e => .error (wrapOverrideErr identity e)) := by
  have hval : schemaValOf d = JsVal.null := by simp [schemaValOf, h, JsVal.typeof]
  refine ⟨rfl, rfl, ?_, ?_⟩
  · intro hcs
    unfold compileOne
    rw [hval, hcs]
    rfl
  · intro f hcs
    unfold compileOne
    rw [hval, hcs]
    rfl

theorem c10_null_schema_passes_validation_witness :
    compileOne "user"
      { schema := JsVal.null, constructSchema := OverrideField.undefined, globalId := "User" } =
      .ok (SchemaObj.mongooseSchema JsVal.null) :=
  (c10_null_schema_passes_validation "user"
    { schema := JsVal.null, constructSchema := OverrideField.undefined, globalId := "User" }
    rfl).2.2.1 rfl
